import Mathlib

/-
Verification development for the BEAST grid-backend and prior-model core.

Shallow embedding of:
  * `beast/physicsmodel/priormodel.py` (prior weight engine), and
  * `beast/physicsmodel/helpers/gridbackends.py` (grid storage backends).

Python floats are embedded as rationals (the claims at stake are exact),
Python exceptions as an explicit error type, and stateful methods as
explicit state-passing functions.
-/

/-- Python exception values raised by the embedded code. -/
inductive PyError
  | valueError (msg : String)
  | notImplementedError (msg : String)
  | typeError (msg : String)
  | attributeError (msg : String)
  | keyError (msg : String)
deriving DecidableEq

/-- The `model` dict handed to `PriorModel.__init__` in `priormodel.py`:
a kind name plus the numeric parameters the various kinds read.
Fields a given kind does not read default to placeholder values, mirroring
a dict that simply lacks those keys. -/
structure PriorSpec where
  name : String
  amp : Option ℚ := none
  x : List ℚ := []
  values : List ℚ := []
  mean : ℚ := 0
  sigma : ℚ := 0
  mean1 : ℚ := 0
  sigma1 : ℚ := 0
  mean2 : ℚ := 0
  sigma2 : ℚ := 0
  n1_to_n2 : ℚ := 0
  tau : ℚ := 0
deriving DecidableEq

/-- Modelled from the spec: the pointwise closed-form densities of
`beast.physicsmodel.priormodel_functions` (`_lognorm`, `_two_lognorm`,
`_exponential`), a module that is not under `src/`.  The spec describes them
only as closed-form densities evaluated pointwise, so they are abstracted as
arbitrary pointwise functions; every theorem below holds for all of them. -/
structure DensityFns where
  lognorm : ℚ → ℚ → ℚ → ℚ
  twoLognorm : ℚ → ℚ → ℚ → ℚ → ℚ → ℚ → ℚ → ℚ
  expDens : ℚ → ℚ → ℚ

/-- np.max of a nonempty list (junk 0 on empty; callers guard emptiness). -/
def listMax : List ℚ → ℚ
  | [] => 0
  | a :: rest => rest.foldl max a

/-- np.min of a nonempty list (junk 0 on empty; callers guard emptiness). -/
def listMin : List ℚ → ℚ
  | [] => 0
  | a :: rest => rest.foldl min a

/-- numpy `np.interp t xp fp`: piecewise-linear interpolation of the control
points, clamped at both ends to the nearest control value. -/
def npInterp (t : ℚ) : List ℚ → List ℚ → ℚ
  | x0 :: x1 :: xs, y0 :: y1 :: ys =>
      if t ≤ x0 then y0
      else if t ≤ x1 then y0 + (y1 - y0) * (t - x0) / (x1 - x0)
      else npInterp t (x1 :: xs) (y1 :: ys)
  | [_x0], [y0] => y0
  | _, _ => 0

/-- Value of scipy `interp1d(xs, ys, kind="zero")` at `t` (a step function:
constant from knot `i` to knot `i+1`), assuming `t` is inside the knot range. -/
def interp1dZeroVal (xs ys : List ℚ) (t : ℚ) : ℚ :=
  let k := (xs.filter (fun xi => xi ≤ t)).length
  ys.getD (min (k - 1) (ys.length - 1)) 0

/-- scipy `interp1d(xs, ys, kind="zero")` evaluated on an array: with the
default `bounds_error=True` it raises `ValueError` if any evaluation point
lies outside `[xs.head, xs.last]`. -/
def interp1dZeroEval (xs ys : List ℚ) (ts : List ℚ) : Except PyError (List ℚ) :=
  if ts.all (fun t => xs.getD 0 0 ≤ t ∧ t ≤ xs.getLastD 0) then
    .ok (ts.map (interp1dZeroVal xs ys))
  else
    .error (.valueError "A value in x_new is out of the interpolation range")

/-- Embeds `PriorModel.__call__` from `priormodel.py` (lines 43-94), embedded with
explicit model-state passing: the returned `PriorSpec` is the stored model
after the call (the `bins_histo` branch appends to it in place).
The `bins_histo` bounds check is embedded exactly as written in the source:
`np.all([np.max(x) <= cval <= np.min(x) for cval in self.model["values"]])`,
with `np.max`/`np.min` of an empty sample array raising `ValueError`. -/
def priorModelCall (dens : DensityFns) (m : PriorSpec) (xs : List ℚ) :
    Except PyError (List ℚ × PriorSpec) :=
  if m.name = "flat" then
    .ok (xs.map (fun _ => m.amp.getD 1), m)
  else if m.name = "bins_histo" then
    if m.values.length ≠ 0 ∧ xs.length = 0 then
      .error (.valueError "zero-size array to reduction operation")
    else if m.values.all (fun cval => listMax xs ≤ cval ∧ cval ≤ listMin xs) then
      .error (.valueError "bins_histo requested bins outside of model range")
    else
      -- `len(values) == len(x) - 1` on Python ints; equivalent over Nat as below
      let m2 := if m.values.length + 1 = m.x.length then
                  { m with values := m.values ++ [0] } else m
      if m2.x.length < 2 ∨ m2.x.length ≠ m2.values.length then
        .error (.valueError "x and y arrays must be equal in length")
      else
        (interp1dZeroEval m2.x m2.values xs).map (fun ws => (ws, m2))
  else if m.name = "bins_interp" then
    if m.x.length = 0 ∨ m.x.length ≠ m.values.length then
      .error (.valueError "array of sample points is empty")
    else
      .ok (xs.map (fun t => npInterp t m.x m.values), m)
  else if m.name = "lognormal" then
    .ok (xs.map (fun t => dens.lognorm t m.mean m.sigma), m)
  else if m.name = "two_lognormal" then
    .ok (xs.map (fun t =>
      dens.twoLognorm t m.mean1 m.mean2 m.sigma1 m.sigma2 m.n1_to_n2 1), m)
  else if m.name = "exponential" then
    .ok (xs.map (fun t => dens.expDens t m.tau), m)
  else
    .error (.notImplementedError (m.name ++ " is not an allowed model"))

/-- Embeds `PriorModel.__init__` (lines 24-41): reject a kind outside the
allow-list with `NotImplementedError`, otherwise store the model. -/
def priorModelInit (m : PriorSpec) (allowed_models : Option (List String)) :
    Except PyError PriorSpec :=
  match allowed_models with
  | some al =>
      if m.name ∈ al then .ok m
      else .error (.notImplementedError (m.name ++ " is not an allowed model"))
  | none => .ok m

/-- Embeds `PriorDustModel.__init__` (lines 102-105). -/
def priorDustModelInit (m : PriorSpec) : Except PyError PriorSpec :=
  priorModelInit m (some ["flat", "lognormal", "two_lognormal", "exponential"])

/-- Embeds `PriorAgeModel.__init__` (lines 113-123). -/
def priorAgeModelInit (m : PriorSpec) : Except PyError PriorSpec :=
  priorModelInit m
    (some ["flat", "flat_log", "bins_histo", "bins_interp", "exponential"])

/-- Embeds `PriorMetallicityModel.__init__` (lines 148-149). -/
def priorMetallicityModelInit (m : PriorSpec) : Except PyError PriorSpec :=
  priorModelInit m (some ["flat"])

/-- Embeds `PriorDistanceModel.__init__` (lines 157-158). -/
def priorDistanceModelInit (m : PriorSpec) : Except PyError PriorSpec :=
  priorModelInit m (some ["flat"])

/-- Embeds `PriorMassModel.__init__` (lines 166-167). -/
def priorMassModelInit (m : PriorSpec) : Except PyError PriorSpec :=
  priorModelInit m (some ["flat", "salpeter", "kroupa"])

/-- Consecutive differences, as `np.diff`. -/
def diffList : List ℚ → List ℚ
  | a :: b :: rest => (b - a) :: diffList (b :: rest)
  | _ => []

/-- Midpoints of adjacent elements. -/
def midBounds : List ℚ → List ℚ
  | a :: b :: rest => (a + b) / 2 :: midBounds (b :: rest)
  | _ => []

/-- Modelled from the spec: `compute_bin_boundaries` from
`beast.physicsmodel.grid_weights_stars`, a module not under `src/`.
Per spec section 4.3: for n samples it returns n+1 boundaries, each interior
boundary the midpoint of adjacent samples, and the two outer boundaries
extrapolated symmetrically by the adjacent half bin width. -/
def compute_bin_boundaries (xs : List ℚ) : List ℚ :=
  match xs, xs.reverse with
  | a :: b :: _, p :: q :: _ =>
      ((a - (b - a) / 2) :: midBounds xs) ++ [p + (p - q) / 2]
  | _, _ => []

/-- Insert index `i` into an index list kept sorted by the values of `xs`
(insertion step of a stable sort). -/
def insertIdx (xs : List ℚ) (i : ℕ) : List ℕ → List ℕ
  | [] => [i]
  | j :: rest =>
      if xs.getD i 0 < xs.getD j 0 then i :: j :: rest
      else j :: insertIdx xs i rest

/-- Embeds `np.argsort`: indices that sort `xs` ascending (embedded as a stable
insertion sort; any sorting permutation is a faithful model). -/
def argsort (xs : List ℚ) : List ℕ :=
  (List.range xs.length).foldr (insertIdx xs) []

/-- The scatter loop of `PriorMassModel.__call__` (lines 193-196):
`mass_weights[cindx] = raw[i]` for `i, cindx in enumerate(sindxs)`;
for a sorting permutation `sindxs` this sets position `j` to the raw weight
at the position of `j` inside `sindxs`. -/
def scatterBack (sindxs : List ℕ) (raw : List ℚ) : List ℚ :=
  (List.range sindxs.length).map (fun j => raw.getD (sindxs.indexOf j) 0)

/-- Per-bin average IMF density (lines 193-196): quad integral of the IMF
over the bin, divided by the bin width.  `I a b` stands for the quad
integral of the chosen IMF density from `a` to `b`. -/
def rawMassWeights (I : ℚ → ℚ → ℚ) (bounds : List ℚ) (n : ℕ) : List ℚ :=
  (List.range n).map (fun i =>
    I (bounds.getD i 0) (bounds.getD (i + 1) 0)
      / (bounds.getD (i + 1) 0 - bounds.getD i 0))

/-- Mass weights of `PriorMassModel.__call__` before the final
normalization: sort, bin, integrate per bin, scatter back. -/
def massRawScattered (I : ℚ → ℚ → ℚ) (xs : List ℚ) : List ℚ :=
  let sindxs := argsort xs
  scatterBack sindxs
    (rawMassWeights I
      (compute_bin_boundaries (sindxs.map (fun i => xs.getD i 0))) xs.length)

/-- Embeds `PriorMassModel.__call__` weights (lines 169-201): the raw scattered
weights divided by their own average (`mass_weights /= np.average(...)`). -/
def priorMassWeights (I : ℚ → ℚ → ℚ) (xs : List ℚ) : List ℚ :=
  let s := massRawScattered I xs
  s.map (fun w => w / (s.sum / s.length))

/-- Modelled from the spec: `PriorMassModel.__call__` dispatches on the kind
name to one of `_imf_kroupa`, `_imf_salpeter`, `_imf_flat` from the missing
`priormodel_functions` module; `imfInt nm a b` abstracts the quad integral of
the density selected by `nm` over `[a, b]`.  The call reads the stored model
only through its name and returns it unchanged. -/
def priorMassModelCall (imfInt : String → ℚ → ℚ → ℚ) (m : PriorSpec)
    (xs : List ℚ) : List ℚ × PriorSpec :=
  (priorMassWeights (imfInt m.name) xs, m)

/-- Embeds `PriorAgeModel.__call__` (lines 125-140), with the same state passing as
`priorModelCall`.  `pow10` abstracts the float `10 ** _` used by the two
age-specific branches. -/
def priorAgeCall (dens : DensityFns) (pow10 : ℚ → ℚ) (m : PriorSpec)
    (xs : List ℚ) : Except PyError (List ℚ × PriorSpec) :=
  if m.name = "flat_log" then
    let ws := (diffList ((compute_bin_boundaries xs).map pow10)).map (fun d => 1 / d)
    .ok (ws.map (fun w => w / ws.sum), m)
  else if m.name = "exponential" then
    .ok (xs.map (fun t => dens.expDens (pow10 t) (m.tau * 1000000000)), m)
  else
    priorModelCall dens m xs

/-- Arithmetic mean of a list of rationals, as `np.average`. -/
def meanList (l : List ℚ) : ℚ := l.sum / l.length

/-- A concrete density bundle used to instantiate witnesses. -/
def zeroDens : DensityFns :=
  { lognorm := fun _ _ _ => 0
    twoLognorm := fun _ _ _ _ _ _ _ => 0
    expDens := fun _ _ => 0 }

/-- A concrete abstract-IMF-integral used to instantiate witnesses: the
integral of the constant density 1 from `a` to `b`. -/
def unitImfInt : String → ℚ → ℚ → ℚ := fun _ a b => b - a

/-- The concrete `bins_interp` model of the spec's exactness property. -/
def binsInterpEx : PriorSpec :=
  { name := "bins_interp", x := [1, 2, 3], values := [0, 10, 0] }

/-- The concrete `bins_histo` model used for the bounds-check discussion. -/
def binsHistoEx : PriorSpec :=
  { name := "bins_histo", x := [10, 20, 30], values := [1, 1] }

/-- An astropy `Table`: columns plus the `meta` mapping (its attached
metadata header).  Cell values are embedded as rationals. -/
structure ATable where
  cols : List (String × List ℚ)
  meta : List (String × String)
deriving DecidableEq

/-- Attribute names exposed by `astropy.table.Table` that the embedded code
could touch.  Per the astropy API the metadata lives in `meta`; a `Table`
has no `header` attribute, so attribute access on that name raises
`AttributeError`. -/
def astropyTableAttrNames : List String :=
  ["columns", "colnames", "dtype", "meta", "masked", "read", "write"]

/-- Python attribute read `table.header`: `header` is not among a Table's
attributes, hence an `AttributeError`. -/
def tableGetAttrHeader (t : ATable) : Except PyError (List (String × String)) :=
  if "header" ∈ astropyTableAttrNames then .ok t.meta
  else .error (.attributeError "Table object has no attribute header")

/-- Contents of a grid file in the HDF layout of `gridbackends.py`:
datasets `seds`, `lamb`, optional `covdiag`/`covoffdiag`, and the parameter
table at path `grid` carrying its metadata. -/
structure GridFile where
  lamb : List ℚ
  seds : List (List ℚ)
  covdiag : Option (List (List ℚ))
  covoffdiag : Option (List (List ℚ))
  grid : ATable
deriving DecidableEq

/-- The fields a `MemoryBackend` holds after loading a file. -/
structure MemoryState where
  lamb : List ℚ
  seds : List (List ℚ)
  cov_diag : Option (List (List ℚ))
  cov_offdiag : Option (List (List ℚ))
  grid : ATable
  header : List (String × String)
deriving DecidableEq

/-- Embeds `MemoryBackend._from_File`, HDF branch (lines 352-370): read `seds`,
`lamb`; read `covdiag` when the key is present; line 360 of the source also
tests the `covdiag` key (not `covoffdiag`) before reading `covoffdiag`, so a
file holding `covdiag` without `covoffdiag` raises `KeyError`; read the
`grid` table and take the header from its metadata. -/
def memoryFromFileHDF (f : GridFile) : Except PyError MemoryState := do
  let cd := if f.covdiag.isSome then f.covdiag else none
  let cod ← if f.covdiag.isSome then
              match f.covoffdiag with
              | some v => pure (some v)
              | none => Except.error (.keyError "Unable to open object covoffdiag")
            else pure none
  pure { lamb := f.lamb, seds := f.seds, cov_diag := cd, cov_offdiag := cod,
         grid := f.grid, header := f.grid.meta }

/-- The per-field cache slots of a `CacheBackend` (all empty right after
`__init__`, which calls `clear()`). -/
structure CacheState where
  cSeds : Option (List (List ℚ)) := none
  cLamb : Option (List ℚ) := none
  cCovdiag : Option (List (List ℚ)) := none
  cCovoffdiag : Option (List (List ℚ)) := none
  cGrid : Option ATable := none
  cHeader : Option (List (String × String)) := none
  cFilters : Option (List String) := none
deriving DecidableEq

/-- Embeds `CacheBackend.clear()` with no argument (lines 409-427): reset every
cache slot. -/
def cacheClearAll (_s : CacheState) : CacheState := {}

/-- Embeds `CacheBackend._load_seds` (HDF branch). -/
def cacheLoadSeds (f : GridFile) (s : CacheState) : CacheState :=
  if s.cSeds.isSome then s else { s with cSeds := some f.seds }

/-- Embeds `CacheBackend._load_lamb` (HDF branch). -/
def cacheLoadLamb (f : GridFile) (s : CacheState) : CacheState :=
  if s.cLamb.isSome then s else { s with cLamb := some f.lamb }

/-- Embeds `CacheBackend._load_grid` (HDF branch, lines 481-492): read the table
and set `_header` to its metadata. -/
def cacheLoadGrid (f : GridFile) (s : CacheState) : CacheState :=
  if s.cGrid.isSome then s
  else { s with cGrid := some f.grid, cHeader := some f.grid.meta }

/-- The `seds` property of `CacheBackend` (lines 511-514). -/
def cacheGetSeds (f : GridFile) (s : CacheState) : List (List ℚ) × CacheState :=
  let s2 := cacheLoadSeds f s
  (s2.cSeds.getD [], s2)

/-- The `lamb` property of `CacheBackend` (lines 520-523). -/
def cacheGetLamb (f : GridFile) (s : CacheState) : List ℚ × CacheState :=
  let s2 := cacheLoadLamb f s
  (s2.cLamb.getD [], s2)

/-- The `grid` property of `CacheBackend` (lines 547-550). -/
def cacheGetGrid (f : GridFile) (s : CacheState) : ATable × CacheState :=
  let s2 := cacheLoadGrid f s
  (s2.cGrid.getD ⟨[], []⟩, s2)

/-- The `header` property of `CacheBackend` (lines 556-559): load the grid,
then return `self._grid.header` - an attribute read on the astropy Table,
which has no `header` attribute. -/
def cacheGetHeader (f : GridFile) (s : CacheState) :
    Except PyError (List (String × String)) × CacheState :=
  let s2 := cacheLoadGrid f s
  (tableGetAttrHeader (s2.cGrid.getD ⟨[], []⟩), s2)

/-- A Python object bound to the `grid` slot of a backend: either the
recognized astropy `Table`, or some other object (only its description is
relevant to the type check in the writers). -/
inductive PyObj
  | table (t : ATable)
  | nontable (descr : String)
deriving DecidableEq

/-- The attribute state a writer reads: the uniform field set of a
`GridBackend`, each possibly absent (`None`). -/
structure WriteState where
  lamb : Option (List ℚ) := none
  seds : Option (List (List ℚ)) := none
  cov_diag : Option (List (List ℚ)) := none
  cov_offdiag : Option (List (List ℚ)) := none
  grid : Option PyObj := none
  header : List (String × String) := []
  filters : Option (List String) := none
deriving DecidableEq

/-- One HDU of the FITS output of `writeFITS`. -/
inductive FitsHDU
  | primary (data : List ℚ)
  | image (nm : String) (data : List (List ℚ))
  | bintable (nm : String) (t : ATable)
deriving DecidableEq

/-- Embeds `GridBackend.writeFITS` (lines 116-142): require `lamb`, `seds`, `grid`
all present (`ValueError` otherwise), require the grid to be an astropy
Table (`TypeError` otherwise), then emit primary = wavelengths, image
`seds`, optional images `covdiag`/`covoffdiag`, and the `grid` table. -/
def writeFITS (s : WriteState) : Except PyError (List FitsHDU) :=
  match s.lamb, s.seds, s.grid with
  | some lamb, some seds, some gobj =>
      match gobj with
      | .table g =>
          .ok ([FitsHDU.primary lamb, FitsHDU.image "seds" seds]
            ++ (match s.cov_diag with
                | some cd => [FitsHDU.image "covdiag" cd]
                | none => [])
            ++ (match s.cov_offdiag with
                | some cod => [FitsHDU.image "covoffdiag" cod]
                | none => [])
            ++ [FitsHDU.bintable "grid" g])
      | .nontable _ => .error (.typeError "Only astropy.Table are supported")
  | _, _, _ =>
      .error (.valueError "Full data set not specified (lamb, seds, grid)")

/-- The dataset/table layout of the HDF output of `writeHDF`. -/
structure HDFOut where
  sedsDs : List (List ℚ)
  lambDs : List ℚ
  covdiagDs : Option (List (List ℚ))
  covoffdiagDs : Option (List (List ℚ))
  gridTable : ATable
deriving DecidableEq

/-- Embeds `GridBackend.writeHDF` with `append=False` (lines 144-179): same
presence and type checks as the FITS writer; write datasets `seds`, `lamb`,
the covariance datasets only when present; when a filter list is present
and the header lacks a `filters` key, add it (space-joined); attach the
header as the grid table metadata. -/
def writeHDF (s : WriteState) : Except PyError HDFOut :=
  match s.lamb, s.seds, s.grid with
  | some lamb, some seds, some gobj =>
      match gobj with
      | .table g =>
          let hdr := if s.filters.isSome ∧ s.header.lookup "filters" = none then
                       s.header ++ [("filters", String.intercalate " " (s.filters.getD []))]
                     else s.header
          .ok { sedsDs := seds, lambDs := lamb, covdiagDs := s.cov_diag,
                covoffdiagDs := s.cov_offdiag, gridTable := { g with meta := hdr } }
      | .nontable _ => .error (.typeError "Only astropy.Table are supported")
  | _, _, _ =>
      .error (.valueError "Full data set not specified (lamb, seds, grid)")

/-- Characters of the current segment after scanning the input, restarting
at every dot: the segment after the last dot (the whole input when it has
no dot). -/
def lastSegAux (cur : List Char) : List Char → List Char
  | [] => cur
  | c :: rest => if c = '.' then lastSegAux [] rest else lastSegAux (cur ++ [c]) rest

/-- Python `fname.split(".")[-1]`: the trailing dot-segment of the
filename. -/
def fileExt (fname : String) : String := ⟨lastSegAux [] fname.data⟩

/-- Embeds `GridBackend._get_type` (lines 84-93): take the trailing dot-segment of
the filename and look it up in the `types` dict
`{fits: fits, hdf: hdf, hd5: hdf, hdf5: hdf}` (case-sensitive);
unknown segments raise `ValueError` naming the segment. -/
def get_type (fname : String) : Except PyError String :=
  let fext := fileExt fname
  if fext = "fits" then .ok "fits"
  else if fext = "hdf" then .ok "hdf"
  else if fext = "hd5" then .ok "hdf"
  else if fext = "hdf5" then .ok "hdf"
  else .error (.valueError (fext ++ " file type not supported"))

/-- The serializer a `write` call dispatches to. -/
inductive WriterKind
  | fits
  | hdf
deriving DecidableEq

/-- Embeds `GridBackend.write` (lines 102-114): dispatch on `_get_type`; a
`ValueError` from `_get_type` propagates.  All three realizations inherit
this method unchanged. -/
def writeDispatch (fname : String) : Except PyError WriterKind :=
  match get_type fname with
  | .error e => .error e
  | .ok t =>
      if t = "fits" then .ok .fits
      else if t = "hdf" then .ok .hdf
      else .error (.valueError (fname ++ " format not supported"))

/-- The fields a backend holds after `MemoryBackend.__init__` on raw
arrays. -/
structure MemRawState where
  lamb : List ℚ
  seds : List (List ℚ)
  grid : PyObj
  cov_diag : Option (List (List ℚ))
  cov_offdiag : Option (List (List ℚ))
deriving DecidableEq

/-- Embeds `MemoryBackend.__init__` raw-array branch (lines 284-295): `ValueError`
when `seds` or `grid` is missing; store the covariance terms only when both
are supplied, otherwise set both to `None`. -/
def memoryInitRaw (lamb : List ℚ) (seds? : Option (List (List ℚ)))
    (grid? : Option PyObj) (cd cod : Option (List (List ℚ))) :
    Except PyError MemRawState :=
  match seds?, grid? with
  | some seds, some grid =>
      if cd.isSome ∧ cod.isSome then
        .ok { lamb := lamb, seds := seds, grid := grid,
              cov_diag := cd, cov_offdiag := cod }
      else
        .ok { lamb := lamb, seds := seds, grid := grid,
              cov_diag := none, cov_offdiag := none }
  | _, _ => .error (.valueError "Wrong number of arguments")

/-- A heap of Python array objects; references are indices into it.
Assignment between attributes copies the reference, `copy.deepcopy`
would allocate a fresh cell. -/
structure PyHeap where
  cells : List (List ℚ)
deriving DecidableEq

/-- Read the array a reference points to. -/
def heapRead (h : PyHeap) (r : ℕ) : List ℚ := h.cells.getD r []

/-- Mutate the array a reference points to (in-place update, visible
through every alias of the same reference). -/
def heapWrite (h : PyHeap) (r : ℕ) (v : List ℚ) : PyHeap :=
  ⟨h.cells.set r v⟩

/-- The field references a backend object holds. -/
structure BackendFields where
  lambRef : ℕ
  sedsRef : ℕ
  gridRef : ℕ
deriving DecidableEq

/-- The class of the source backend handed to `_from_GridBackend`, as far
as its `header` property is concerned: a `MemoryBackend` (or plain
`GridBackend`) resolves `header` to the inherited property returning
`self._header`, while a `CacheBackend` overrides it with the property that
returns `self._grid.header`. -/
inductive SourceKind
  | memoryK
  | cacheK
deriving DecidableEq

/-- The attribute state of a backend a `MemoryBackend` can be constructed
from: the references of its `lamb`/`seds`/`grid` arrays (what the
corresponding property reads return), its `_filters`, `_header` and
`_aliases` slots, and its (loaded) parameter table object. -/
structure SourceBackendState where
  fields : BackendFields
  filtersSlot : Option (List String)
  headerSlot : List (String × String)
  aliasesSlot : List (String × String)
  gridTable : ATable
deriving DecidableEq

/-- The read `b.header` inside `_from_GridBackend` (line 215), resolved
through the source's `header` property: `GridBackend.header` (lines 66-68)
returns `self._header`; `CacheBackend.header` (lines 556-559) returns
`self._grid.header`, an attribute the astropy Table does not have. -/
def backendHeaderRead : SourceKind → SourceBackendState →
    Except PyError (List (String × String))
  | .memoryK, b => .ok b.headerSlot
  | .cacheK, b => tableGetAttrHeader b.gridTable

/-- The fields a `MemoryBackend` holds after `_from_GridBackend`. -/
structure MemFromBackend where
  lambRef : ℕ
  sedsRef : ℕ
  gridRef : ℕ
  filtersF : Option (List String)
  headerF : List (String × String)
  aliasesF : List (String × String)
deriving DecidableEq

/-- Embeds `GridBackend._from_GridBackend` (lines 202-216): plain attribute
assignments `self.lamb = b.lamb`, `self.seds = b.seds`,
`self.grid = b.grid`, `self._filters = b._filters`,
`self._header = b.header`, `self._aliases = b._aliases` - the references
are copied, the arrays are not.  In the source the `b.header` read (line
215) runs after the first four assignments; when it raises, the exception
propagates out of `__init__`, so the constructed object never escapes and
the whole construction is the error. -/
def from_GridBackend (k : SourceKind) (b : SourceBackendState) :
    Except PyError MemFromBackend := do
  let hdr ← backendHeaderRead k b
  pure { lambRef := b.fields.lambRef, sedsRef := b.fields.sedsRef,
         gridRef := b.fields.gridRef, filtersF := b.filtersSlot,
         headerF := hdr, aliasesF := b.aliasesSlot }

/-- A concrete source backend with `lamb`, `seds`, `grid` bound to heap
cells 0, 1, 2. -/
def srcBackendEx : SourceBackendState :=
  { fields := ⟨0, 1, 2⟩, filtersSlot := none, headerSlot := [],
    aliasesSlot := [], gridTable := ⟨[], []⟩ }

/-- Attribute names defined on `MemoryBackend` instances by the source
(methods and properties of `GridBackend` lines 51-227 and `MemoryBackend`
lines 237-384, plus the instance attributes those constructors set). -/
def memoryBackendAttrNames : List String :=
  ["nbytes", "header", "filters", "keys", "_get_type", "write",
   "writeFITS", "writeHDF", "_from_HDFBackend", "_from_GridBackend",
   "_from_File", "copy", "_filters", "_header", "fname", "_aliases",
   "lamb", "seds", "grid", "cov_diag", "cov_offdiag"]

/-- The `isinstance(lamb, HDFBackend)` branch of `MemoryBackend.__init__`
(line 279) calls `self._fromHDFBackend(lamb)`: Python resolves the
attribute name against the instance and its classes, and no attribute of
that name exists, so the branch raises `AttributeError`. -/
def memoryInitFromHDFBackend : Except PyError Unit :=
  if "_fromHDFBackend" ∈ memoryBackendAttrNames then .ok ()
  else .error
    (.attributeError "MemoryBackend object has no attribute _fromHDFBackend")

/-- A concrete grid file used in closed theorems. -/
def gridFileEx : GridFile :=
  { lamb := [1, 2]
    seds := [[3, 4], [5, 6]]
    covdiag := none
    covoffdiag := none
    grid := { cols := [("M_ini", [1, 2])]
              meta := [("NAME", "test"), ("filters", "F1 F2")] } }

theorem insertIdx_length (xs : List ℚ) (i : ℕ) (l : List ℕ) :
    (insertIdx xs i l).length = l.length + 1 := by
  induction l with
  | nil => rfl
  | cons j rest ih =>
      simp only [insertIdx]
      split <;> simp [ih]

theorem argsort_length (xs : List ℚ) : (argsort xs).length = xs.length := by
  unfold argsort
  have h : ∀ l : List ℕ, (l.foldr (insertIdx xs) []).length = l.length := by
    intro l
    induction l with
    | nil => rfl
    | cons a t ih => simp [List.foldr, insertIdx_length, ih]
  simpa using h (List.range xs.length)

theorem sum_map_div (l : List ℚ) (a : ℚ) :
    (l.map (fun w => w / a)).sum = l.sum / a := by
  induction l with
  | nil => simp
  | cons x t ih => simp [ih, add_div]

theorem massRawScattered_length (I : ℚ → ℚ → ℚ) (xs : List ℚ) :
    (massRawScattered I xs).length = xs.length := by
  simp [massRawScattered, scatterBack, argsort_length]

theorem npInterp_model_left (t : ℚ) (ht : t ≤ 1) :
    npInterp t [1, 2, 3] [0, 10, 0] = 0 := by
  simp [npInterp, ht]

theorem npInterp_model_right (t : ℚ) (ht : 3 ≤ t) :
    npInterp t [1, 2, 3] [0, 10, 0] = 0 := by
  have h1 : ¬ t ≤ 1 := by linarith
  have h2 : ¬ t ≤ 2 := by linarith
  rcases eq_or_lt_of_le ht with h3 | h3
  · subst h3
    norm_num [npInterp]
  · have h3x : ¬ t ≤ 3 := by linarith
    simp [npInterp, h1, h2, h3x]

theorem priorModelCall_state (dens : DensityFns) (m : PriorSpec)
    (xs ws : List ℚ) (m2 : PriorSpec)
    (h : priorModelCall dens m xs = .ok (ws, m2)) :
    m2 = if m.name = "bins_histo" ∧ m.values.length + 1 = m.x.length
         then { m with values := m.values ++ [0] } else m := by
  simp only [priorModelCall] at h
  split_ifs at h with h1 h2 h3 h4 h5 h6 h7 h8 h9 h10 h11 h12 <;>
    simp_all [Except.map] <;>
    first
      | (obtain ⟨h1', h2'⟩ := h; simp_all)
      | (rcases heq : interp1dZeroEval m.x (m.values ++ [0]) xs with e | v <;>
          rw [heq] at h <;> simp_all)
      | (rcases heq : interp1dZeroEval m.x m.values xs with e | v <;>
          rw [heq] at h <;> simp_all)

/-- C1: the spec says a `bins_histo` prior raises `ValueError` before any
weight is computed whenever the model breakpoints do not all fall within
`[min(x), max(x)]` of the evaluation samples.  The code instead tests
`np.max(x) <= cval <= np.min(x)` over `model["values"]`: for the model with
breakpoints `[10, 20, 30]` evaluated at `[15, 17]` every breakpoint but one
is outside `[15, 17]`, yet no error is raised and weights `[1, 1]` are
returned (first conjunct); the check only fires in the degenerate situation
`max(x) = min(x)` with all heights equal to the samples, where it raises
even though the breakpoints contain the sample range (second conjunct). -/
theorem C1_bounds_check_bug :
    priorModelCall zeroDens binsHistoEx [15, 17]
      = .ok ([1, 1], { binsHistoEx with values := [1, 1, 0] })
    ∧ priorModelCall zeroDens
        { name := "bins_histo", x := [20, 30], values := [20] } [20, 20]
      = .error (.valueError "bins_histo requested bins outside of model range") :=
  ⟨rfl, rfl⟩

/-- C2: the spec says a `CacheBackend` and a `MemoryBackend` over the same
file return identical `seds`, `lamb`, `grid`, `header`, `filters`.  The
`seds`, `lamb` and `grid` reads do agree (middle conjuncts), and clearing
then re-accessing returns the same value (last conjunct), but the `header`
property of `CacheBackend` returns `self._grid.header`, an attribute the
astropy `Table` does not have, so reading `header` raises `AttributeError`
instead of returning the header the `MemoryBackend` returns. -/
theorem C2_header_bug :
    memoryFromFileHDF gridFileEx
      = .ok { lamb := [1, 2], seds := [[3, 4], [5, 6]], cov_diag := none,
              cov_offdiag := none, grid := gridFileEx.grid,
              header := [("NAME", "test"), ("filters", "F1 F2")] }
    ∧ (cacheGetSeds gridFileEx {}).1 = gridFileEx.seds
    ∧ (cacheGetLamb gridFileEx {}).1 = gridFileEx.lamb
    ∧ (cacheGetGrid gridFileEx {}).1 = gridFileEx.grid
    ∧ (cacheGetHeader gridFileEx {}).1
        = .error (.attributeError "Table object has no attribute header")
    ∧ (cacheGetSeds gridFileEx (cacheClearAll (cacheGetSeds gridFileEx {}).2)).1
        = (cacheGetSeds gridFileEx {}).1 :=
  ⟨rfl, rfl, rfl, rfl, rfl, rfl⟩

/-- C5 counterexample: the claim says constructing a `MemoryBackend` from
another backend instance succeeds for every backend realization and
materializes deep copies, so mutating the source does not change the new
grid.  For the concrete `MemoryBackend`-style source with `lamb` bound to
heap cell 0 holding `[1, 2]`, construction succeeds but copies the
reference, so mutating the source's `lamb` array to `[9]` changes what the
new grid's `lamb` reference reads. -/
theorem C5_deepcopy_counterexample :
    from_GridBackend .memoryK srcBackendEx
      = .ok { lambRef := 0, sedsRef := 1, gridRef := 2, filtersF := none,
              headerF := [], aliasesF := [] }
    ∧ heapRead (heapWrite ⟨[[1, 2], [3], [4]]⟩ srcBackendEx.fields.lambRef [9])
        ({ lambRef := 0, sedsRef := 1, gridRef := 2, filtersF := none,
           headerF := [], aliasesF := [] } : MemFromBackend).lambRef
      ≠ heapRead ⟨[[1, 2], [3], [4]]⟩
        ({ lambRef := 0, sedsRef := 1, gridRef := 2, filtersF := none,
           headerF := [], aliasesF := [] } : MemFromBackend).lambRef :=
  ⟨rfl, by decide⟩

/-- C5 amended: constructing a `MemoryBackend` from a source whose `header`
property is the inherited `GridBackend.header` (a `MemoryBackend` or plain
`GridBackend`) succeeds but binds `lamb`, `seds`, `grid` by reference and
copies the `_filters` and `_header` slots, so the array values track
mutation of the source; constructing from a `CacheBackend` fails with
`AttributeError` because line 215 reads `b.header` and `CacheBackend.header`
returns the nonexistent `Table.header` attribute; and the `HDFBackend`
branch of `__init__` fails with `AttributeError` because it calls the
misspelled method name `_fromHDFBackend`. -/
theorem C5_from_backend_amended :
    (∀ b : SourceBackendState,
        from_GridBackend .memoryK b
          = .ok { lambRef := b.fields.lambRef, sedsRef := b.fields.sedsRef,
                  gridRef := b.fields.gridRef, filtersF := b.filtersSlot,
                  headerF := b.headerSlot, aliasesF := b.aliasesSlot })
    ∧ (∀ (h : PyHeap) (b : SourceBackendState) (v : List ℚ) (g : MemFromBackend),
        from_GridBackend .memoryK b = .ok g →
        heapRead (heapWrite h b.fields.lambRef v) g.lambRef
          = heapRead (heapWrite h b.fields.lambRef v) b.fields.lambRef)
    ∧ (∀ b : SourceBackendState,
        from_GridBackend .cacheK b
          = .error (.attributeError "Table object has no attribute header"))
    ∧ memoryInitFromHDFBackend
        = .error (.attributeError
            "MemoryBackend object has no attribute _fromHDFBackend") := by
  refine ⟨fun b => rfl, fun h b v g hg => ?_, fun b => rfl, rfl⟩
  have hg2 : (⟨b.fields.lambRef, b.fields.sedsRef, b.fields.gridRef,
      b.filtersSlot, b.headerSlot, b.aliasesSlot⟩ : MemFromBackend) = g :=
    Except.ok.inj hg
  rw [← hg2]

/-- C5 witness: construction from the concrete memory-style source succeeds
and the new grid's `lamb` read tracks the mutation of the source's array. -/
theorem C5_from_backend_witness :
    from_GridBackend .memoryK srcBackendEx
      = .ok { lambRef := 0, sedsRef := 1, gridRef := 2, filtersF := none,
              headerF := [], aliasesF := [] }
    ∧ heapRead (heapWrite ⟨[[1, 2], [3], [4]]⟩ srcBackendEx.fields.lambRef [9])
        ({ lambRef := 0, sedsRef := 1, gridRef := 2, filtersF := none,
           headerF := [], aliasesF := [] } : MemFromBackend).lambRef
      = heapRead (heapWrite ⟨[[1, 2], [3], [4]]⟩ srcBackendEx.fields.lambRef [9])
        srcBackendEx.fields.lambRef :=
  ⟨rfl, C5_from_backend_amended.2.1 ⟨[[1, 2], [3], [4]]⟩ srcBackendEx [9]
      { lambRef := 0, sedsRef := 1, gridRef := 2, filtersF := none,
        headerF := [], aliasesF := [] } rfl⟩

/-- C6: a `bins_interp` prior performs piecewise-linear interpolation of its
control points, clamped at the ends: for control points `x = [1, 2, 3]`,
`values = [0, 10, 0]`, evaluating at `[1, 1.5, 2, 2.5, 3]` returns
`[0, 5, 10, 5, 0]`, every sample at or below the first control point gets
the first control value, and every sample at or beyond the last control
point gets the last control value. -/
theorem C6_bins_interp :
    (∀ dens, priorModelCall dens binsInterpEx [1, 3/2, 2, 5/2, 3]
        = .ok ([0, 5, 10, 5, 0], binsInterpEx))
    ∧ (∀ dens t, t ≤ 1 →
        priorModelCall dens binsInterpEx [t] = .ok ([0], binsInterpEx))
    ∧ (∀ dens t, 3 ≤ t →
        priorModelCall dens binsInterpEx [t] = .ok ([0], binsInterpEx)) := by
  refine ⟨fun dens => ?_, fun dens t ht => ?_, fun dens t ht => ?_⟩
  · have hred : priorModelCall dens binsInterpEx [1, 3/2, 2, 5/2, 3]
        = .ok ([1, 3/2, 2, 5/2, 3].map (fun t => npInterp t [1, 2, 3] [0, 10, 0]),
               binsInterpEx) := rfl
    rw [hred]
    norm_num [npInterp]
  · have hred : priorModelCall dens binsInterpEx [t]
        = .ok ([npInterp t [1, 2, 3] [0, 10, 0]], binsInterpEx) := rfl
    rw [hred, npInterp_model_left t ht]
  · have hred : priorModelCall dens binsInterpEx [t]
        = .ok ([npInterp t [1, 2, 3] [0, 10, 0]], binsInterpEx) := rfl
    rw [hred, npInterp_model_right t ht]

/-- C6 witness: the clamped evaluations at the concrete points 0 and 4. -/
theorem C6_bins_interp_witness :
    priorModelCall zeroDens binsInterpEx [0] = .ok ([0], binsInterpEx)
    ∧ priorModelCall zeroDens binsInterpEx [4] = .ok ([0], binsInterpEx) :=
  ⟨C6_bins_interp.2.1 zeroDens 0 (by norm_num),
   C6_bins_interp.2.2 zeroDens 4 (by norm_num)⟩

/-- C7: constructing a prior model with a kind outside the allow-list of
the chosen physical quantity fails with the not-implemented error, an
allowed kind succeeds; in particular the mass model rejects `lognormal`
while the dust model accepts it. -/
theorem C7_allowlist :
    (∀ (m : PriorSpec) (al : List String),
        (∃ e, priorModelInit m (some al) = .error e) ↔ m.name ∉ al)
    ∧ priorMassModelInit { name := "lognormal" }
        = .error (.notImplementedError "lognormal is not an allowed model")
    ∧ priorDustModelInit { name := "lognormal" } = .ok { name := "lognormal" } := by
  refine ⟨fun m al => ⟨?_, ?_⟩, rfl, rfl⟩
  · rintro ⟨e, he⟩ hmem
    simp [priorModelInit, hmem] at he
  · intro hmem
    exact ⟨.notImplementedError (m.name ++ " is not an allowed model"),
           by simp [priorModelInit, hmem]⟩

/-- C8: file-type dispatch on write is by the trailing dot-segment,
case-sensitively: `fits` selects the FITS writer, `hdf`, `hd5`, `hdf5`
select the HDF writer, and any other trailing segment (including an
upper-case `FITS`) fails with `ValueError` naming the segment; the general
conjunct characterises exactly when `_get_type` raises. -/
theorem C8_extension_dispatch :
    (∀ fname : String,
        get_type fname
            = .error (.valueError (fileExt fname ++ " file type not supported"))
          ↔ fileExt fname ∉ ["fits", "hdf", "hd5", "hdf5"])
    ∧ writeDispatch "model.fits" = .ok WriterKind.fits
    ∧ writeDispatch "model.hdf" = .ok WriterKind.hdf
    ∧ writeDispatch "model.hd5" = .ok WriterKind.hdf
    ∧ writeDispatch "model.hdf5" = .ok WriterKind.hdf
    ∧ writeDispatch "model.xyz"
        = .error (.valueError "xyz file type not supported")
    ∧ writeDispatch "model.FITS"
        = .error (.valueError "FITS file type not supported") := by
  refine ⟨fun fname => ?_, rfl, rfl, rfl, rfl, rfl, rfl⟩
  by_cases h1 : fileExt fname = "fits" <;>
    by_cases h2 : fileExt fname = "hdf" <;>
      by_cases h3 : fileExt fname = "hd5" <;>
        by_cases h4 : fileExt fname = "hdf5" <;>
          simp_all [get_type]

/-- C10: when a `MemoryBackend` is built from raw arrays with exactly one
of the covariance terms supplied, no error is raised and both are stored as
`None`; in general after raw construction `cov_diag` is `None` exactly when
`cov_offdiag` is. -/
theorem C10_cov_invariant (lamb : List ℚ) (seds : List (List ℚ)) (grid : PyObj)
    (cd cod : Option (List (List ℚ))) :
    (cd.isSome ≠ cod.isSome →
        memoryInitRaw lamb (some seds) (some grid) cd cod
          = .ok { lamb := lamb, seds := seds, grid := grid,
                  cov_diag := none, cov_offdiag := none })
    ∧ (∀ st, memoryInitRaw lamb (some seds) (some grid) cd cod = .ok st →
        (st.cov_diag = none ↔ st.cov_offdiag = none)) := by
  constructor
  · intro hx
    cases cd <;> cases cod <;> simp_all [memoryInitRaw]
  · intro st hst
    cases cd <;> cases cod <;> simp_all [memoryInitRaw] <;>
      (obtain rfl := hst.symm) <;> simp

/-- C3: the weights returned by the mass prior have arithmetic mean exactly
1, for every IMF kind (the integral of the selected density is abstracted
as `imfInt`), whenever the sample array is nonempty and the raw bin
integrals do not sum to zero (always the case for the positive IMF
densities): the final step divides every weight by the array's own
average. -/
theorem C3_mass_prior_mean (imfInt : String → ℚ → ℚ → ℚ) (m : PriorSpec)
    (xs : List ℚ) (hne : xs ≠ [])
    (hsum : (massRawScattered (imfInt m.name) xs).sum ≠ 0) :
    meanList (priorMassModelCall imfInt m xs).1 = 1 := by
  have hlen : (massRawScattered (imfInt m.name) xs).length = xs.length :=
    massRawScattered_length _ _
  have hL : ((massRawScattered (imfInt m.name) xs).length : ℚ) ≠ 0 := by
    rw [hlen]
    exact Nat.cast_ne_zero.mpr (List.length_pos.mpr hne).ne'
  simp only [priorMassModelCall, priorMassWeights, meanList]
  rw [sum_map_div]
  simp only [List.length_map]
  field_simp

/-- C3 witness: the concrete flat-IMF evaluation on samples `[1, 3]`. -/
theorem C3_mass_prior_mean_witness :
    (([1, 3] : List ℚ) ≠ [])
    ∧ (massRawScattered (unitImfInt "flat") [1, 3]).sum ≠ 0
    ∧ meanList (priorMassModelCall unitImfInt { name := "flat" } [1, 3]).1 = 1 := by
  have hraw : massRawScattered (unitImfInt "flat") [1, 3] = [1, 1] := by
    norm_num [massRawScattered, argsort, insertIdx, scatterBack, rawMassWeights,
      compute_bin_boundaries, midBounds, unitImfInt, List.range_succ]
  refine ⟨by simp, by rw [hraw]; norm_num, ?_⟩
  exact C3_mass_prior_mean unitImfInt { name := "flat" } [1, 3] (by simp)
    (by rw [hraw]; norm_num)

/-- C4 counterexample: calling the concrete `bins_histo` model (breakpoints
`[10, 20, 30]`, heights `[1, 1]`) on the sample `[15]` succeeds and returns
a stored model whose `values` list has become `[1, 1, 0]` - the call
mutated the model specification, refuting the claimed immutability. -/
theorem C4_mutation_counterexample :
    priorModelCall zeroDens binsHistoEx [15]
      = .ok ([1], { binsHistoEx with values := [1, 1, 0] })
    ∧ ({ binsHistoEx with values := [1, 1, 0] } : PriorSpec) ≠ binsHistoEx := by
  refine ⟨rfl, fun hc => ?_⟩
  have hlen := congrArg (fun p : PriorSpec => p.values.length) hc
  simp [binsHistoEx] at hlen

/-- C4 amended: calling a prior model leaves the stored model specification
unchanged, except that a `bins_histo` call whose `values` list is exactly
one element shorter than its `x` list appends a trailing `0.0` to the
stored `values` (the base call, the age-model call which delegates to it,
and the mass-model call are all covered). -/
theorem C4_immutability_amended (dens : DensityFns) (pow10 : ℚ → ℚ)
    (imfInt : String → ℚ → ℚ → ℚ) (m : PriorSpec) (xs ws : List ℚ)
    (m2 : PriorSpec) :
    (priorModelCall dens m xs = .ok (ws, m2) →
        m2 = if m.name = "bins_histo" ∧ m.values.length + 1 = m.x.length
             then { m with values := m.values ++ [0] } else m)
    ∧ (priorAgeCall dens pow10 m xs = .ok (ws, m2) →
        m2 = if m.name = "bins_histo" ∧ m.values.length + 1 = m.x.length
             then { m with values := m.values ++ [0] } else m)
    ∧ (priorMassModelCall imfInt m xs).2 = m := by
  refine ⟨priorModelCall_state dens m xs ws m2, ?_, rfl⟩
  intro h
  unfold priorAgeCall at h
  split_ifs at h with hfl hexp
  · simp only [Except.ok.injEq, Prod.mk.injEq] at h
    obtain ⟨-, hm⟩ := h
    subst hm
    simp [hfl]
  · simp only [Except.ok.injEq, Prod.mk.injEq] at h
    obtain ⟨-, hm⟩ := h
    subst hm
    simp [hexp]
  · exact priorModelCall_state dens m xs ws m2 h

/-- C4 witness: calling a `flat` model returns the model unchanged. -/
theorem C4_immutability_witness :
    priorModelCall zeroDens { name := "flat" } [1] = .ok ([1], { name := "flat" })
    ∧ ({ name := "flat" } : PriorSpec)
        = if ({ name := "flat" } : PriorSpec).name = "bins_histo"
             ∧ ({ name := "flat" } : PriorSpec).values.length + 1
                 = ({ name := "flat" } : PriorSpec).x.length
          then { ({ name := "flat" } : PriorSpec) with
                 values := ({ name := "flat" } : PriorSpec).values ++ [0] }
          else { name := "flat" } :=
  ⟨rfl, (C4_immutability_amended zeroDens id unitImfInt { name := "flat" } [1] [1]
      { name := "flat" }).1 rfl⟩

/-- C9: both writers fail with the data-completeness `ValueError` whenever
any of wavelengths, seds or the parameter table is absent; both fail with
`TypeError` when the parameter table is present but not an astropy Table;
and a grid with both covariance terms omitted writes successfully, with no
`covdiag`/`covoffdiag` HDU or dataset in the output. -/
theorem C9_write_rejection :
    (∀ s : WriteState, s.lamb = none ∨ s.seds = none ∨ s.grid = none →
        writeFITS s = .error (.valueError "Full data set not specified (lamb, seds, grid)")
        ∧ writeHDF s = .error (.valueError "Full data set not specified (lamb, seds, grid)"))
    ∧ (∀ (lamb : List ℚ) (seds : List (List ℚ))
          (covd covod : Option (List (List ℚ)))
          (hdr : List (String × String)) (fl : Option (List String)) (d : String),
        writeFITS { lamb := some lamb, seds := some seds, cov_diag := covd,
                    cov_offdiag := covod, grid := some (.nontable d),
                    header := hdr, filters := fl }
            = .error (.typeError "Only astropy.Table are supported")
        ∧ writeHDF { lamb := some lamb, seds := some seds, cov_diag := covd,
                     cov_offdiag := covod, grid := some (.nontable d),
                     header := hdr, filters := fl }
            = .error (.typeError "Only astropy.Table are supported"))
    ∧ (∀ (lamb : List ℚ) (seds : List (List ℚ)) (g : ATable)
          (hdr : List (String × String)) (fl : Option (List String)),
        writeFITS { lamb := some lamb, seds := some seds, cov_diag := none,
                    cov_offdiag := none, grid := some (.table g),
                    header := hdr, filters := fl }
            = .ok [FitsHDU.primary lamb, FitsHDU.image "seds" seds,
                   FitsHDU.bintable "grid" g]
        ∧ ∃ out, writeHDF { lamb := some lamb, seds := some seds,
                            cov_diag := none, cov_offdiag := none,
                            grid := some (.table g), header := hdr, filters := fl }
              = .ok out
            ∧ out.covdiagDs = none ∧ out.covoffdiagDs = none) := by
  refine ⟨fun s h => ?_, fun lamb seds covd covod hdr fl d => ⟨rfl, rfl⟩,
          fun lamb seds g hdr fl => ⟨rfl, ⟨_, rfl, rfl, rfl⟩⟩⟩
  obtain ⟨l?, s?, cd, cod, g?, hdr, fl⟩ := s
  cases l? <;> cases s? <;> cases g? <;> simp_all [writeFITS, writeHDF]

/-- C9 witness: the three branches at concrete grids. -/
theorem C9_write_rejection_witness :
    writeFITS {}
        = .error (.valueError "Full data set not specified (lamb, seds, grid)")
    ∧ writeFITS { lamb := some [1], seds := some [[2]],
                  grid := some (.nontable "numpy.ndarray") }
        = .error (.typeError "Only astropy.Table are supported")
    ∧ writeFITS { lamb := some [1], seds := some [[2]],
                  grid := some (.table ⟨[], []⟩) }
        = .ok [FitsHDU.primary [1], FitsHDU.image "seds" [[2]],
               FitsHDU.bintable "grid" ⟨[], []⟩] :=
  ⟨(C9_write_rejection.1 {} (Or.inl rfl)).1,
   (C9_write_rejection.2.1 [1] [[2]] none none [] none "numpy.ndarray").1,
   (C9_write_rejection.2.2 [1] [[2]] ⟨[], []⟩ [] none).1⟩

/-- C10 witness: supplying only `cov_diag` stores `None` for both. -/
theorem C10_cov_invariant_witness :
    memoryInitRaw [1] (some [[2]]) (some (.table ⟨[], []⟩)) (some [[3]]) none
      = .ok { lamb := [1], seds := [[2]], grid := .table ⟨[], []⟩,
              cov_diag := none, cov_offdiag := none } :=
  (C10_cov_invariant [1] [[2]] (.table ⟨[], []⟩) (some [[3]]) none).1 (by decide)
